import Mathlib

/-!
Verification of the budget-aware cost-tracking core of the AI chat REPL
(`src/chat.py`): the pricing table and cost calculator, the persistent
cost ledger (`CostTracker`), and the session budget guard and message
processing flow of `ChatREPL`.

Modelling conventions:
* Dollar amounts and per-1M-token rates are rationals (`ℚ`); Python's
  true division `/` is rational division.
* The ledger `self.costs` (a dict of dicts) is a function
  `user_id → date → Option DailyAggregate`, updated pointwise exactly as
  `add_session` mutates the nested dicts.
* Durable storage (the JSON file) holds the serialized ledger value;
  `_save_costs` stores it, `_load_costs` returns the stored value or the
  empty ledger when the file does not exist.
* `raise ValueError` in `calculate_cost` is `Except.error`; the
  `try/except` around the completion call is modelled by passing the
  outcome of the external service as an `Except String ApiResponse`.
* Console output relevant to the claims is modelled as a list of
  structured `Event`s.
-/

/-- One pricing entry of `MODEL_PRICING`: dollars per 1M tokens. -/
structure Pricing where
  input : ℚ
  output : ℚ
  cached_input : Option ℚ
deriving DecidableEq

/-- The `MODEL_PRICING` table from `src/chat.py`, keyed by model name. -/
def MODEL_PRICING : String → Option Pricing
  | "gpt-4o" => some ⟨2.50, 10.00, some 1.25⟩
  | "gpt-4o-mini" => some ⟨0.15, 0.60, some 0.075⟩
  | "gpt-5" => some ⟨1.25, 10.00, some 0.125⟩
  | "gpt-5-mini" => some ⟨0.25, 2.00, some 0.025⟩
  | "gpt-5-nano" => some ⟨0.05, 0.40, some 0.005⟩
  | "gpt-4.1" => some ⟨2.00, 8.00, some 0.50⟩
  | "gpt-4.1-mini" => some ⟨0.40, 1.60, some 0.10⟩
  | "gpt-4.1-nano" => some ⟨0.10, 0.40, some 0.025⟩
  | "o3-mini" => some ⟨1.10, 4.40, some 0.55⟩
  | "o4-mini" => some ⟨1.10, 4.40, some 0.275⟩
  | "gpt-4-turbo" => some ⟨10.00, 30.00, none⟩
  | "gpt-3.5-turbo" => some ⟨0.50, 1.50, none⟩
  | _ => none

/-- `calculate_cost(model, input_tokens, output_tokens)`: raises
`ValueError` (modelled as `Except.error`) for a model absent from
`MODEL_PRICING`, else `input/1M * input_rate + output/1M * output_rate`. -/
def calculate_cost (model : String) (input_tokens output_tokens : ℕ) :
    Except String ℚ :=
  match MODEL_PRICING model with
  | none => .error ("Unknown model: " ++ model)
  | some pricing =>
      .ok ((input_tokens : ℚ) / 1000000 * pricing.input
        + (output_tokens : ℚ) / 1000000 * pricing.output)

/-- One element of a `DailyAggregate`'s `sessions` list, as appended by
`CostTracker.add_session`. -/
structure SessionRecord where
  session_id : String
  cost : ℚ
  messages : ℕ
  timestamp : String

/-- The per-`(user, date)` value of `self.costs`: the `sessions` list and
the running totals. -/
structure DailyAggregate where
  sessions : List SessionRecord
  total_cost : ℚ
  total_messages : ℕ

/-- The in-memory ledger `self.costs`: `user_id → date → aggregate`. -/
def Ledger : Type := String → String → Option DailyAggregate

/-- The ledger before any user or date has an entry (`{}`). -/
def emptyLedger : Ledger := fun _ _ => none

/-- The fresh aggregate created when a `(user, date)` key is first seen:
`{'sessions': [], 'total_cost': 0.0, 'total_messages': 0}`. -/
def emptyAggregate : DailyAggregate := ⟨[], 0, 0⟩

/-- The in-memory mutation performed by `CostTracker.add_session`:
create the `(user_id, today)` aggregate if missing, append the session
record, and increment both totals. All other keys are untouched. -/
def addSessionLedger (led : Ledger) (today session_id user_id : String)
    (cost : ℚ) (messages : ℕ) (timestamp : String) : Ledger :=
  fun u d =>
    if u = user_id ∧ d = today then
      let agg := (led user_id today).getD emptyAggregate
      some { sessions := agg.sessions ++ [⟨session_id, cost, messages, timestamp⟩]
             total_cost := agg.total_cost + cost
             total_messages := agg.total_messages + messages }
    else led u d

/-- `get_daily_cost` on a bare ledger: the aggregate's `total_cost`, or
`0.0` when the `(user, date)` key is absent. -/
def dailyCost (led : Ledger) (user_id date : String) : ℚ :=
  match led user_id date with
  | some agg => agg.total_cost
  | none => 0

/-- The durable storage file: `none` models a missing file, `some led`
a file holding the serialization of `led`. -/
structure Storage where
  contents : Option Ledger

/-- `CostTracker`: the in-memory ledger together with its backing file. -/
structure CostTracker where
  costs : Ledger
  storage : Storage

/-- `CostTracker._load_costs`: the stored ledger, or `{}` when the file
does not exist. -/
def loadCosts (st : Storage) : Ledger :=
  match st.contents with
  | some led => led
  | none => emptyLedger

/-- `CostTracker.__init__`: load `self.costs` from the file. -/
def CostTracker.fromStorage (st : Storage) : CostTracker :=
  { costs := loadCosts st, storage := st }

/-- `CostTracker._save_costs`: write the in-memory ledger to the file. -/
def saveCosts (led : Ledger) : Storage := ⟨some led⟩

/-- `CostTracker.add_session`: mutate the in-memory ledger and
immediately persist it (`self._save_costs()`). `today` is the
`%Y-%m-%d` rendering of the call-time clock. -/
def CostTracker.add_session (t : CostTracker) (today session_id user_id : String)
    (cost : ℚ) (messages : ℕ) (timestamp : String) : CostTracker :=
  let newCosts := addSessionLedger t.costs today session_id user_id cost messages timestamp
  { costs := newCosts, storage := saveCosts newCosts }

/-- `CostTracker.get_daily_cost(user_id, date)`. -/
def CostTracker.get_daily_cost (t : CostTracker) (user_id date : String) : ℚ :=
  dailyCost t.costs user_id date

/-- The aggregate invariant: every stored `DailyAggregate`'s totals equal
the sums over its `sessions` list. -/
def WF (led : Ledger) : Prop :=
  ∀ u d agg, led u d = some agg →
    agg.total_cost = (agg.sessions.map SessionRecord.cost).sum ∧
    agg.total_messages = (agg.sessions.map SessionRecord.messages).sum

/-- The arguments of one `add_session` call (with its call-time date and
timestamp made explicit). -/
structure AddCall where
  today : String
  session_id : String
  user_id : String
  cost : ℚ
  messages : ℕ
  timestamp : String

/-- Apply a sequence of `add_session` calls to a tracker, left to right. -/
def applyCalls (t : CostTracker) (calls : List AddCall) : CostTracker :=
  calls.foldl
    (fun acc c => acc.add_session c.today c.session_id c.user_id c.cost c.messages c.timestamp)
    t

lemma addSessionLedger_preserves_wf (led : Ledger) (hwf : WF led)
    (today session_id user_id : String) (cost : ℚ) (messages : ℕ) (timestamp : String) :
    WF (addSessionLedger led today session_id user_id cost messages timestamp) := by
  intro u d agg h
  unfold addSessionLedger at h
  by_cases hud : u = user_id ∧ d = today
  · simp only [hud, if_pos, and_self, if_true] at h
    cases hled : led user_id today with
    | none =>
        rw [hled] at h
        simp only [Option.getD_none] at h
        cases h.symm
        simp [emptyAggregate]
    | some old =>
        rw [hled] at h
        simp only [Option.getD_some] at h
        obtain ⟨h1, h2⟩ := hwf user_id today old hled
        cases h.symm
        constructor
        · simp [List.map_append, List.sum_append, h1]
        · simp [List.map_append, List.sum_append, h2]
  · rw [if_neg hud] at h
    exact hwf u d agg h

lemma applyCalls_preserves_wf (t : CostTracker) (hwf : WF t.costs)
    (calls : List AddCall) : WF (applyCalls t calls).costs := by
  induction calls generalizing t with
  | nil => exact hwf
  | cons c rest ih =>
      have hstep : WF (t.add_session c.today c.session_id c.user_id c.cost c.messages c.timestamp).costs :=
        addSessionLedger_preserves_wf t.costs hwf c.today c.session_id c.user_id c.cost c.messages c.timestamp
      exact ih _ hstep

lemma wf_emptyLedger : WF emptyLedger := by
  intro u d agg h
  simp [emptyLedger] at h

/-- The configuration fields of `ChatConfig` that the chat core reads
(environment loading is an external collaborator). -/
structure ChatConfig where
  model : String
  max_tokens : ℕ
  session_budget : ℚ
  daily_budget : ℚ
  budget_warning_threshold : ℚ
  user_id : String

/-- The mutable per-session state of `ChatREPL`, together with its
`CostTracker`. -/
structure REPLState where
  session_id : String
  session_cost : ℚ
  message_count : ℕ
  running : Bool
  tracker : CostTracker

/-- The warning level surfaced by `_check_budget_warnings`. -/
inductive WarnLevel where
  | none
  | warning
  | critical
deriving DecidableEq

/-- Console output relevant to the claims, as structured events. -/
inductive Event where
  | estimatedCost (estimate : ℚ)
  | budgetExceeded (session_cost budget estimate : ℚ)
  | budgetWarning (level : WarnLevel)
  | reply (text : String) (input_tokens output_tokens : ℕ) (cost session_total : ℚ)
  | apiError (message : String)
  | dailyBudgetExceeded (daily_cost : ℚ)
  | goodbye (total : ℚ)
  | helpShown
  | costReport
  | budgetStatus
deriving DecidableEq

/-- The fields of the external completion response that the code reads. -/
structure ApiResponse where
  reply : String
  prompt_tokens : ℕ
  completion_tokens : ℕ

/-- `ChatREPL._check_budget(estimated_cost)`: admit everything when
`session_budget <= 0`; otherwise reject (print the figures, set
`running = False`, return `False`) exactly when
`session_cost + estimated_cost > session_budget`. -/
def check_budget (cfg : ChatConfig) (st : REPLState) (estimated_cost : ℚ) :
    Bool × REPLState × List Event :=
  if cfg.session_budget ≤ 0 then
    (true, st, [])
  else if st.session_cost + estimated_cost > cfg.session_budget then
    (false, { st with running := false },
      [.budgetExceeded st.session_cost cfg.session_budget estimated_cost])
  else
    (true, st, [])

/-- `ChatREPL._check_budget_warnings()`: silent when
`session_budget <= 0`; else critical at `usage >= 0.9`, warning at
`usage >= budget_warning_threshold`, else silent. Never mutates state. -/
def check_budget_warnings (cfg : ChatConfig) (st : REPLState) : WarnLevel :=
  if cfg.session_budget ≤ 0 then
    .none
  else
    let usage_percent := st.session_cost / cfg.session_budget
    if usage_percent ≥ 0.9 then .critical
    else if usage_percent ≥ cfg.budget_warning_threshold then .warning
    else .none

/-- `ChatREPL.__init__`: fresh session state (`session_cost = 0`,
`message_count = 0`, `running = False`), then the daily pre-check: when
`daily_budget > 0` and the ledger's daily cost for the user is already
at or above it, print the exceedance and set `running = False` (which
`__init__` had already set). -/
def ChatREPL.init (cfg : ChatConfig) (session_id : String) (t : CostTracker)
    (today : String) : REPLState × List Event :=
  let base : REPLState :=
    { session_id := session_id, session_cost := 0, message_count := 0,
      running := false, tracker := t }
  let daily_cost := t.get_daily_cost cfg.user_id today
  if cfg.daily_budget > 0 ∧ daily_cost ≥ cfg.daily_budget then
    ({ base with running := false }, [.dailyBudgetExceeded daily_cost])
  else
    (base, [])

/-- The state change `ChatREPL.start` performs before entering its read
loop: it unconditionally sets `running = True`. -/
def ChatREPL.start (st : REPLState) : REPLState := { st with running := true }

/-- `ChatREPL.stop()`: persist the session totals into the ledger via
`add_session`. -/
def ChatREPL.stop (cfg : ChatConfig) (today timestamp : String)
    (st : REPLState) : REPLState :=
  { st with tracker :=
      (st.tracker.add_session today st.session_id cfg.user_id
        st.session_cost st.message_count timestamp) }

/-- Python's `str.lower()`, character-wise. -/
def lower (s : String) : String := ⟨s.data.map Char.toLower⟩

/-- `ChatREPL.process_message(message)`. Besides the new state it
returns whether the external completion service was invoked and the
events printed. The service outcome is passed in as
`api : Except String ApiResponse` (the `try/except` around the call);
`count_tokens` is the external tokenizer capability. An `Except.error`
result of the whole function is an uncaught `ValueError` from the
estimate-time `calculate_cost` (which the code does not guard). -/
def process_message (cfg : ChatConfig) (today timestamp : String)
    (count_tokens : String → String → ℕ) (api : Except String ApiResponse)
    (st : REPLState) (message : String) :
    Except String (REPLState × Bool × List Event) :=
  if lower message = "exit" then
    let st1 := ChatREPL.stop cfg today timestamp st
    .ok ({ st1 with running := false }, false, [.goodbye st.session_cost])
  else if lower message = "help" then
    .ok (st, false, [.helpShown])
  else if lower message = "/cost" then
    .ok (st, false, [.costReport])
  else if lower message = "/budget" then
    .ok (st, false, [.budgetStatus])
  else
    let input_tokens := count_tokens message cfg.model
    match calculate_cost cfg.model input_tokens cfg.max_tokens with
    | .error e => .error e
    | .ok estimated_cost =>
      let (admitted, st1, ev1) := check_budget cfg st estimated_cost
      if admitted = false then
        .ok (st1, false, .estimatedCost estimated_cost :: ev1)
      else
        match api with
        | .error e =>
            .ok (st1, true, [.estimatedCost estimated_cost, .apiError e])
        | .ok resp =>
            match calculate_cost cfg.model resp.prompt_tokens resp.completion_tokens with
            | .error e =>
                .ok (st1, true, [.estimatedCost estimated_cost, .apiError e])
            | .ok actual_cost =>
                let st2 := { st1 with
                  session_cost := st1.session_cost + actual_cost,
                  message_count := st1.message_count + 1 }
                let level := check_budget_warnings cfg st2
                .ok (st2, true,
                  [.estimatedCost estimated_cost, .budgetWarning level,
                   .reply resp.reply resp.prompt_tokens resp.completion_tokens
                     actual_cost st2.session_cost])

/-- One iteration of the `start()` read loop: input is read and handed
to `process_message` only while `running` is true. -/
def loop_step (cfg : ChatConfig) (today timestamp : String)
    (count_tokens : String → String → ℕ) (api : Except String ApiResponse)
    (st : REPLState) (input : String) :
    Option (Except String (REPLState × Bool × List Event)) :=
  if st.running then some (process_message cfg today timestamp count_tokens api st input)
  else none

lemma check_budget_of_admitted (cfg : ChatConfig) (st : REPLState)
    (estimated_cost : ℚ) (h : (check_budget cfg st estimated_cost).1 = true) :
    check_budget cfg st estimated_cost = (true, st, []) := by
  unfold check_budget at h ⊢
  by_cases h0 : cfg.session_budget ≤ 0
  · rw [if_pos h0]
  · rw [if_neg h0] at h ⊢
    by_cases hover : st.session_cost + estimated_cost > cfg.session_budget
    · rw [if_pos hover] at h
      simp at h
    · rw [if_neg hover]

/-- A tracker constructed over a missing costs file (`costs = {}`). -/
def demoTracker : CostTracker := CostTracker.fromStorage ⟨none⟩

/-- Config with `session_budget = 1.00` and warning threshold `0.75`,
used for the boundary examples. -/
def cfgBoundary : ChatConfig :=
  { model := "gpt-3.5-turbo", max_tokens := 500, session_budget := 1.00,
    daily_budget := 0, budget_warning_threshold := 0.75, user_id := "default" }

/-- Session state with `session_cost = 0.96`. -/
def stBoundary : REPLState :=
  { session_id := "s1", session_cost := 0.96, message_count := 4,
    running := true, tracker := demoTracker }

lemma wf_demoTracker : WF demoTracker.costs := by
  intro u d agg h
  simp [demoTracker, CostTracker.fromStorage, loadCosts, emptyLedger] at h

/-- C3: for every model with a pricing entry and all token counts, the
calculator returns exactly `i/1M * input_rate + o/1M * output_rate`,
`cost(model, 0, 0) = 0`, and for `gpt-3.5-turbo` (0.50 in / 1.50 out per
1M) 10 input and 20 output tokens cost exactly 0.000035. -/
theorem calculate_cost_formula (model : String) (p : Pricing)
    (hp : MODEL_PRICING model = some p) (input_tokens output_tokens : ℕ) :
    calculate_cost model input_tokens output_tokens
        = .ok ((input_tokens : ℚ) / 1000000 * p.input
            + (output_tokens : ℚ) / 1000000 * p.output) ∧
    calculate_cost model 0 0 = .ok 0 ∧
    calculate_cost "gpt-3.5-turbo" 10 20 = .ok 0.000035 := by
  refine ⟨?_, ?_, ?_⟩
  · unfold calculate_cost
    rw [hp]
  · unfold calculate_cost
    rw [hp]
    norm_num
  · have h35 : MODEL_PRICING "gpt-3.5-turbo" = some ⟨0.50, 1.50, none⟩ := rfl
    unfold calculate_cost
    rw [h35]
    simp only [Except.ok.injEq]
    norm_num

/-- Witness for C3 at `gpt-3.5-turbo`, 10 input and 20 output tokens. -/
theorem calculate_cost_formula_witness :
    MODEL_PRICING "gpt-3.5-turbo" = some ⟨0.50, 1.50, none⟩ ∧
    (calculate_cost "gpt-3.5-turbo" 10 20
        = .ok ((10 : ℚ) / 1000000 * 0.50 + (20 : ℚ) / 1000000 * 1.50) ∧
     calculate_cost "gpt-3.5-turbo" 0 0 = .ok 0 ∧
     calculate_cost "gpt-3.5-turbo" 10 20 = .ok 0.000035) :=
  ⟨rfl, calculate_cost_formula "gpt-3.5-turbo" ⟨0.50, 1.50, none⟩ rfl 10 20⟩

/-- C9: the calculator raises `Unknown model` exactly when the model has
no entry in `MODEL_PRICING`, independent of the token counts. -/
theorem calculate_cost_unknown_iff (model : String) (input_tokens output_tokens : ℕ) :
    calculate_cost model input_tokens output_tokens
        = .error ("Unknown model: " ++ model) ↔
      MODEL_PRICING model = none := by
  cases h : MODEL_PRICING model with
  | none =>
      unfold calculate_cost
      rw [h]
      simp
  | some p =>
      unfold calculate_cost
      rw [h]
      simp

/-- C1: the pre-flight check returns `False` (and clears `running`)
exactly when `session_budget > 0` and
`session_cost + estimated_cost > session_budget`; any non-positive cap
admits everything; at cap 1.00 with spend 0.96, an estimate of 0.03 is
admitted and one of 0.05 is rejected. -/
theorem check_budget_reject_iff (cfg : ChatConfig) (st : REPLState)
    (estimated_cost : ℚ) :
    ((check_budget cfg st estimated_cost).1 = false ↔
      0 < cfg.session_budget ∧
        cfg.session_budget < st.session_cost + estimated_cost) ∧
    ((check_budget cfg st estimated_cost).1 = false →
      (check_budget cfg st estimated_cost).2.1.running = false) ∧
    (cfg.session_budget ≤ 0 → (check_budget cfg st estimated_cost).1 = true) ∧
    (check_budget cfgBoundary stBoundary 0.03).1 = true ∧
    (check_budget cfgBoundary stBoundary 0.05).1 = false := by
  have hmain : ∀ cfg1 st1 e1, ((check_budget cfg1 st1 e1).1 = false ↔
      0 < cfg1.session_budget ∧ cfg1.session_budget < st1.session_cost + e1) := by
    intro cfg1 st1 e1
    unfold check_budget
    by_cases h0 : cfg1.session_budget ≤ 0
    · rw [if_pos h0]
      simp only [Bool.true_eq_false, false_iff, not_and]
      intro hpos
      linarith
    · rw [if_neg h0]
      push_neg at h0
      by_cases hover : st1.session_cost + e1 > cfg1.session_budget
      · rw [if_pos hover]
        simp only [true_iff]
        exact ⟨h0, hover⟩
      · rw [if_neg hover]
        simp only [Bool.true_eq_false, false_iff, not_and]
        intro _
        linarith
  refine ⟨hmain cfg st estimated_cost, ?_, ?_, ?_, ?_⟩
  · intro hrej
    unfold check_budget at hrej ⊢
    by_cases h0 : cfg.session_budget ≤ 0
    · rw [if_pos h0] at hrej
      simp at hrej
    · rw [if_neg h0] at hrej ⊢
      by_cases hover : st.session_cost + estimated_cost > cfg.session_budget
      · rw [if_pos hover]
      · rw [if_neg hover] at hrej
        simp at hrej
  · intro h0
    unfold check_budget
    rw [if_pos h0]
  · have := (hmain cfgBoundary stBoundary 0.03)
    rcases hb : (check_budget cfgBoundary stBoundary 0.03).1 with _ | _
    · exfalso
      have := this.mp hb
      rw [cfgBoundary, stBoundary] at this
      obtain ⟨-, habs⟩ := this
      norm_num at habs
    · rfl
  · apply (hmain cfgBoundary stBoundary 0.05).mpr
    rw [cfgBoundary, stBoundary]
    norm_num

/-- Witness for C1: at cap 1.00 and spend 0.96 an estimate of 0.05 is
rejected and the rejection clears `running`. -/
theorem check_budget_reject_iff_witness :
    (check_budget cfgBoundary stBoundary 0.05).1 = false ∧
    (check_budget cfgBoundary stBoundary 0.05).2.1.running = false := by
  have h := check_budget_reject_iff cfgBoundary stBoundary 0.05
  have hrej : (check_budget cfgBoundary stBoundary 0.05).1 = false := h.2.2.2.2
  exact ⟨hrej, h.2.1 hrej⟩

lemma check_budget_warnings_eq (cfg : ChatConfig) (st : REPLState) :
    check_budget_warnings cfg st =
      (if cfg.session_budget ≤ 0 then .none
       else if st.session_cost / cfg.session_budget ≥ 0.9 then .critical
       else if st.session_cost / cfg.session_budget ≥ cfg.budget_warning_threshold then .warning
       else .none) := rfl

/-- C7: warnings are silent when `session_budget <= 0`; otherwise, with
`usage = session_cost / session_budget`, the level is critical exactly
when `usage >= 0.9`, warning exactly when
`budget_warning_threshold <= usage < 0.9`, and silent exactly
otherwise. The check never touches the session state, so it never
blocks spending. -/
theorem check_budget_warnings_levels (cfg : ChatConfig) (st : REPLState) :
    (cfg.session_budget ≤ 0 → check_budget_warnings cfg st = .none) ∧
    (0 < cfg.session_budget →
      ((check_budget_warnings cfg st = .critical ↔
          (0.9 : ℚ) ≤ st.session_cost / cfg.session_budget) ∧
       (check_budget_warnings cfg st = .warning ↔
          (cfg.budget_warning_threshold ≤ st.session_cost / cfg.session_budget ∧
           st.session_cost / cfg.session_budget < 0.9)) ∧
       (check_budget_warnings cfg st = .none ↔
          (st.session_cost / cfg.session_budget < 0.9 ∧
           st.session_cost / cfg.session_budget < cfg.budget_warning_threshold)))) := by
  rw [check_budget_warnings_eq]
  constructor
  · intro h0
    rw [if_pos h0]
  · intro hpos
    have h0 : ¬ cfg.session_budget ≤ 0 := not_le.mpr hpos
    rw [if_neg h0]
    by_cases hcrit : st.session_cost / cfg.session_budget ≥ 0.9
    · rw [if_pos hcrit]
      refine ⟨⟨fun _ => hcrit, fun _ => rfl⟩, ?_, ?_⟩
      · constructor
        · intro habs
          exact absurd habs (by decide)
        · rintro ⟨-, hlt⟩
          linarith
      · constructor
        · intro habs
          exact absurd habs (by decide)
        · rintro ⟨hlt, -⟩
          linarith
    · rw [if_neg hcrit]
      push_neg at hcrit
      by_cases hwarn : st.session_cost / cfg.session_budget ≥ cfg.budget_warning_threshold
      · rw [if_pos hwarn]
        refine ⟨?_, ?_, ?_⟩
        · constructor
          · intro habs
            exact absurd habs (by decide)
          · intro hge
            linarith
        · exact ⟨fun _ => ⟨hwarn, hcrit⟩, fun _ => rfl⟩
        · constructor
          · intro habs
            exact absurd habs (by decide)
          · rintro ⟨-, hlt⟩
            linarith
      · rw [if_neg hwarn]
        push_neg at hwarn
        refine ⟨?_, ?_, ?_⟩
        · constructor
          · intro habs
            exact absurd habs (by decide)
          · intro hge
            linarith
        · constructor
          · intro habs
            exact absurd habs (by decide)
          · rintro ⟨hge, -⟩
            linarith
        · exact ⟨fun _ => ⟨hcrit, hwarn⟩, fun _ => rfl⟩

/-- Session states with spends 0.76, 0.95 and 0.50 against cap 1.00. -/
def stW76 : REPLState :=
  { session_id := "w1", session_cost := 0.76, message_count := 1,
    running := true, tracker := demoTracker }

def stW95 : REPLState :=
  { session_id := "w2", session_cost := 0.95, message_count := 1,
    running := true, tracker := demoTracker }

def stW50 : REPLState :=
  { session_id := "w3", session_cost := 0.50, message_count := 1,
    running := true, tracker := demoTracker }

/-- Witness for C7: with cap 1.00 and threshold 0.75, spend 0.76 warns,
0.95 is critical, 0.50 is silent. -/
theorem check_budget_warnings_levels_witness :
    check_budget_warnings cfgBoundary stW76 = .warning ∧
    check_budget_warnings cfgBoundary stW95 = .critical ∧
    check_budget_warnings cfgBoundary stW50 = .none := by
  refine ⟨?_, ?_, ?_⟩
  · exact ((check_budget_warnings_levels cfgBoundary stW76).2
      (by rw [cfgBoundary]; norm_num)).2.1.mpr
      (by rw [cfgBoundary, stW76]; norm_num)
  · exact ((check_budget_warnings_levels cfgBoundary stW95).2
      (by rw [cfgBoundary]; norm_num)).1.mpr
      (by rw [cfgBoundary, stW95]; norm_num)
  · exact ((check_budget_warnings_levels cfgBoundary stW50).2
      (by rw [cfgBoundary]; norm_num)).2.2.mpr
      (by rw [cfgBoundary, stW50]; norm_num)

/-- C2: starting from any well-formed ledger, after any sequence of
`add_session` calls every stored aggregate's `total_cost` and
`total_messages` equal the sums over its session records, and
`get_daily_cost` returns the aggregate's `total_cost`, or 0 when the
`(user, date)` key has no aggregate. -/
theorem add_session_totals_invariant (t : CostTracker) (hwf : WF t.costs)
    (calls : List AddCall) :
    WF (applyCalls t calls).costs ∧
    (∀ u d agg, (applyCalls t calls).costs u d = some agg →
        (applyCalls t calls).get_daily_cost u d = agg.total_cost) ∧
    (∀ u d, (applyCalls t calls).costs u d = none →
        (applyCalls t calls).get_daily_cost u d = 0) := by
  refine ⟨applyCalls_preserves_wf t hwf calls, ?_, ?_⟩
  · intro u d agg h
    unfold CostTracker.get_daily_cost dailyCost
    rw [h]
  · intro u d h
    unfold CostTracker.get_daily_cost dailyCost
    rw [h]

/-- Two sessions for the same user and date, as in the spec scenarios. -/
def demoCalls : List AddCall :=
  [⟨"2026-01-01", "sA", "user1", 0.05, 2, "tA"⟩,
   ⟨"2026-01-01", "sB", "user1", 0.03, 1, "tB"⟩]

/-- Witness for C2: the invariant after two `add_session` calls for
`user1` on the same date, starting from the empty ledger. -/
theorem add_session_totals_invariant_witness :
    WF demoTracker.costs ∧
    (WF (applyCalls demoTracker demoCalls).costs ∧
     (∀ u d agg, (applyCalls demoTracker demoCalls).costs u d = some agg →
        (applyCalls demoTracker demoCalls).get_daily_cost u d = agg.total_cost) ∧
     (∀ u d, (applyCalls demoTracker demoCalls).costs u d = none →
        (applyCalls demoTracker demoCalls).get_daily_cost u d = 0)) :=
  ⟨wf_demoTracker, add_session_totals_invariant demoTracker wf_demoTracker demoCalls⟩

/-- C10: `add_session` only touches its own `(user_id, today)` key:
both the stored aggregate and `get_daily_cost` of every other
`(user, date)` pair are unchanged. -/
theorem add_session_frame (t : CostTracker) (today session_id user_id : String)
    (cost : ℚ) (messages : ℕ) (timestamp : String) (u d : String)
    (h : ¬(u = user_id ∧ d = today)) :
    (t.add_session today session_id user_id cost messages timestamp).costs u d
        = t.costs u d ∧
    (t.add_session today session_id user_id cost messages timestamp).get_daily_cost u d
        = t.get_daily_cost u d := by
  have hcosts : (t.add_session today session_id user_id cost messages timestamp).costs u d
      = t.costs u d := by
    show addSessionLedger t.costs today session_id user_id cost messages timestamp u d
        = t.costs u d
    unfold addSessionLedger
    rw [if_neg h]
  refine ⟨hcosts, ?_⟩
  unfold CostTracker.get_daily_cost dailyCost
  rw [hcosts]

/-- Witness for C10: a write for `user1` leaves `user2`'s entry and
daily cost on the same date untouched. -/
theorem add_session_frame_witness :
    (demoTracker.add_session "2026-01-01" "sA" "user1" 0.05 2 "tA").costs
        "user2" "2026-01-01" = demoTracker.costs "user2" "2026-01-01" ∧
    (demoTracker.add_session "2026-01-01" "sA" "user1" 0.05 2 "tA").get_daily_cost
        "user2" "2026-01-01" = demoTracker.get_daily_cost "user2" "2026-01-01" :=
  add_session_frame demoTracker "2026-01-01" "sA" "user1" 0.05 2 "tA"
    "user2" "2026-01-01" (by decide)

/-- C8: writing a session record via `add_session` and then reloading
the ledger from the storage it persisted to yields the same daily cost
for every user and date as the in-memory ledger that performed the
write. -/
theorem add_session_reload_roundtrip (t : CostTracker)
    (today session_id user_id : String) (cost : ℚ) (messages : ℕ)
    (timestamp : String) (u d : String) :
    (CostTracker.fromStorage
        (t.add_session today session_id user_id cost messages timestamp).storage).get_daily_cost u d
      = (t.add_session today session_id user_id cost messages timestamp).get_daily_cost u d := rfl

/-- C5: when the external completion service raises, `process_message`
catches it, reports it, and leaves the whole session state — cost,
message count, running flag and ledger — exactly as it was before the
call, so further input is still read by the loop. -/
theorem api_error_preserves_session (cfg : ChatConfig) (today timestamp : String)
    (count_tokens : String → String → ℕ) (st : REPLState) (message e : String)
    (est : ℚ)
    (h1 : lower message ≠ "exit") (h2 : lower message ≠ "help")
    (h3 : lower message ≠ "/cost") (h4 : lower message ≠ "/budget")
    (hest : calculate_cost cfg.model (count_tokens message cfg.model) cfg.max_tokens
        = .ok est)
    (hpass : (check_budget cfg st est).1 = true) :
    process_message cfg today timestamp count_tokens (.error e) st message =
      .ok (st, true, [.estimatedCost est, .apiError e]) ∧
    (st.running = true → ∀ input api2,
      loop_step cfg today timestamp count_tokens api2 st input
        = some (process_message cfg today timestamp count_tokens api2 st input)) := by
  constructor
  · unfold process_message
    rw [if_neg h1, if_neg h2, if_neg h3, if_neg h4]
    simp only [hest, check_budget_of_admitted cfg st est hpass]
    simp
  · intro hrun input api2
    unfold loop_step
    rw [hrun]
    simp

/-- Config with no session cap, for the error-path witness. -/
def cfgNoCap : ChatConfig :=
  { model := "gpt-3.5-turbo", max_tokens := 500, session_budget := 0,
    daily_budget := 0, budget_warning_threshold := 0.75, user_id := "default" }

/-- A fresh running session over the empty ledger. -/
def stFresh : REPLState :=
  { session_id := "s2", session_cost := 0, message_count := 0,
    running := true, tracker := demoTracker }

/-- Witness for C5: a failing completion call on a fresh session leaves
the state untouched and reports the error. -/
theorem api_error_preserves_session_witness :
    process_message cfgNoCap "2026-01-01" "t1" (fun _ _ => 3) (.error "boom")
        stFresh "What is 2+2?" =
      .ok (stFresh, true, [.estimatedCost 0.0007515, .apiError "boom"]) ∧
    (stFresh.running = true → ∀ input api2,
      loop_step cfgNoCap "2026-01-01" "t1" (fun _ _ => 3) api2 stFresh input
        = some (process_message cfgNoCap "2026-01-01" "t1" (fun _ _ => 3) api2
            stFresh input)) := by
  apply api_error_preserves_session
  · decide
  · decide
  · decide
  · decide
  · show calculate_cost "gpt-3.5-turbo" 3 500 = .ok 0.0007515
    have h35 : MODEL_PRICING "gpt-3.5-turbo" = some ⟨0.50, 1.50, none⟩ := rfl
    unfold calculate_cost
    rw [h35]
    simp only [Except.ok.injEq]
    norm_num
  · show (check_budget cfgNoCap stFresh 0.0007515).1 = true
    unfold check_budget
    rw [if_pos (by norm_num [cfgNoCap] : cfgNoCap.session_budget ≤ 0)]

/-- C6: when the pre-flight check rejects, `process_message` returns
without consulting the service outcome at all (the result is the same
for every `api`), the service-called flag is false, the rejection event
carries the current spend, the cap, and the rejected estimate, the
session state keeps its spend and ledger but `running` is cleared, and
the stopped session reads no further input. -/
theorem budget_reject_blocks_api (cfg : ChatConfig) (today timestamp : String)
    (count_tokens : String → String → ℕ) (api : Except String ApiResponse)
    (st : REPLState) (message : String) (est : ℚ)
    (h1 : lower message ≠ "exit") (h2 : lower message ≠ "help")
    (h3 : lower message ≠ "/cost") (h4 : lower message ≠ "/budget")
    (hest : calculate_cost cfg.model (count_tokens message cfg.model) cfg.max_tokens
        = .ok est)
    (hcap : 0 < cfg.session_budget)
    (hover : cfg.session_budget < st.session_cost + est) :
    process_message cfg today timestamp count_tokens api st message =
      .ok ({ st with running := false }, false,
        [.estimatedCost est,
         .budgetExceeded st.session_cost cfg.session_budget est]) ∧
    (∀ input api2,
      loop_step cfg today timestamp count_tokens api2
        { st with running := false } input = none) := by
  constructor
  · unfold process_message
    rw [if_neg h1, if_neg h2, if_neg h3, if_neg h4]
    have hcb : check_budget cfg st est =
        (false, { st with running := false },
          [.budgetExceeded st.session_cost cfg.session_budget est]) := by
      unfold check_budget
      rw [if_neg (not_le.mpr hcap),
          if_pos (by linarith : st.session_cost + est > cfg.session_budget)]
    simp only [hest, hcb]
    simp
  · intro input api2
    unfold loop_step
    simp

/-- Config whose worst-case estimates are large enough to trip the
1.00 cap from a 0.96 spend. -/
def cfgReject : ChatConfig :=
  { model := "gpt-4-turbo", max_tokens := 2000, session_budget := 1.00,
    daily_budget := 0, budget_warning_threshold := 0.75, user_id := "default" }

/-- Witness for C6: at spend 0.96 against cap 1.00 an estimate of
0.06004 is rejected before the service is consulted. -/
theorem budget_reject_blocks_api_witness :
    process_message cfgReject "2026-01-01" "t1" (fun _ _ => 4) (.ok ⟨"hi", 4, 9⟩)
        stBoundary "Tell me a story" =
      .ok ({ stBoundary with running := false }, false,
        [.estimatedCost 0.06004, .budgetExceeded 0.96 1.00 0.06004]) ∧
    (∀ input api2,
      loop_step cfgReject "2026-01-01" "t1" (fun _ _ => 4) api2
        { stBoundary with running := false } input = none) := by
  apply budget_reject_blocks_api
  · decide
  · decide
  · decide
  · decide
  · show calculate_cost "gpt-4-turbo" 4 2000 = .ok 0.06004
    have h4t : MODEL_PRICING "gpt-4-turbo" = some ⟨10.00, 30.00, none⟩ := rfl
    unfold calculate_cost
    rw [h4t]
    simp only [Except.ok.injEq]
    norm_num
  · norm_num [cfgReject]
  · norm_num [cfgReject, stBoundary]

lemma process_message_ok_eq (cfg : ChatConfig) (today timestamp : String)
    (ct : String → String → ℕ) (resp : ApiResponse) (st : REPLState)
    (message : String) (est actual : ℚ)
    (h1 : lower message ≠ "exit") (h2 : lower message ≠ "help")
    (h3 : lower message ≠ "/cost") (h4 : lower message ≠ "/budget")
    (hest : calculate_cost cfg.model (ct message cfg.model) cfg.max_tokens = .ok est)
    (hpass : (check_budget cfg st est).1 = true)
    (hactual : calculate_cost cfg.model resp.prompt_tokens resp.completion_tokens
        = .ok actual) :
    process_message cfg today timestamp ct (.ok resp) st message =
      .ok ({ st with session_cost := st.session_cost + actual,
                     message_count := st.message_count + 1 },
        true,
        [.estimatedCost est,
         .budgetWarning (check_budget_warnings cfg
           { st with session_cost := st.session_cost + actual,
                     message_count := st.message_count + 1 }),
         .reply resp.reply resp.prompt_tokens resp.completion_tokens actual
           (st.session_cost + actual)]) := by
  unfold process_message
  rw [if_neg h1, if_neg h2, if_neg h3, if_neg h4]
  simp only [hest, check_budget_of_admitted cfg st est hpass, hactual]
  simp

/-- Config with `daily_budget = 5.00` for user `default`. -/
def cfgDaily : ChatConfig :=
  { model := "gpt-3.5-turbo", max_tokens := 500, session_budget := 0,
    daily_budget := 5.00, budget_warning_threshold := 0.75, user_id := "default" }

/-- A ledger already holding 5.00 of spend for `default` on 2026-01-01. -/
def trackerDaily : CostTracker :=
  demoTracker.add_session "2026-01-01" "s0" "default" 5.00 1 "t0"

/-- The session state constructed over the exhausted daily budget. -/
def stDaily : REPLState := (ChatREPL.init cfgDaily "s1" trackerDaily "2026-01-01").1

/-- C4 fails on the code: with `daily_budget = 5.00` already fully spent,
`__init__` does leave `running = False`, but `start()` unconditionally
sets `running = True`, after which the loop hands user input to
`process_message`, which invokes the external completion service. -/
theorem daily_cap_not_enforced_on_start :
    0 < cfgDaily.daily_budget ∧
    cfgDaily.daily_budget ≤ trackerDaily.get_daily_cost cfgDaily.user_id "2026-01-01" ∧
    stDaily.running = false ∧
    (ChatREPL.start stDaily).running = true ∧
    loop_step cfgDaily "2026-01-01" "t1" (fun _ _ => 1) (.ok ⟨"4", 5, 2⟩)
        (ChatREPL.start stDaily) "hello"
      = some (process_message cfgDaily "2026-01-01" "t1" (fun _ _ => 1)
          (.ok ⟨"4", 5, 2⟩) (ChatREPL.start stDaily) "hello") ∧
    (match process_message cfgDaily "2026-01-01" "t1" (fun _ _ => 1)
          (.ok ⟨"4", 5, 2⟩) (ChatREPL.start stDaily) "hello" with
      | .ok (_, called, _) => called
      | .error _ => false) = true := by
  have hdaily : trackerDaily.get_daily_cost "default" "2026-01-01" = 5.00 := by
    unfold trackerDaily demoTracker CostTracker.add_session CostTracker.fromStorage
    unfold CostTracker.get_daily_cost dailyCost addSessionLedger
    simp [loadCosts, emptyLedger, emptyAggregate]
  have hok : process_message cfgDaily "2026-01-01" "t1" (fun _ _ => 1)
        (.ok ⟨"4", 5, 2⟩) (ChatREPL.start stDaily) "hello" =
      .ok ({ ChatREPL.start stDaily with
               session_cost := (ChatREPL.start stDaily).session_cost + 0.0000055,
               message_count := (ChatREPL.start stDaily).message_count + 1 },
        true,
        [.estimatedCost 0.0007505,
         .budgetWarning (check_budget_warnings cfgDaily
           { ChatREPL.start stDaily with
               session_cost := (ChatREPL.start stDaily).session_cost + 0.0000055,
               message_count := (ChatREPL.start stDaily).message_count + 1 }),
         .reply "4" 5 2 0.0000055 ((ChatREPL.start stDaily).session_cost + 0.0000055)]) := by
    apply process_message_ok_eq
    · decide
    · decide
    · decide
    · decide
    · show calculate_cost "gpt-3.5-turbo" 1 500 = .ok 0.0007505
      have h35 : MODEL_PRICING "gpt-3.5-turbo" = some ⟨0.50, 1.50, none⟩ := rfl
      unfold calculate_cost
      rw [h35]
      simp only [Except.ok.injEq]
      norm_num
    · show (check_budget cfgDaily (ChatREPL.start stDaily) 0.0007505).1 = true
      unfold check_budget
      rw [if_pos (by norm_num [cfgDaily] : cfgDaily.session_budget ≤ 0)]
    · show calculate_cost "gpt-3.5-turbo" 5 2 = .ok 0.0000055
      have h35 : MODEL_PRICING "gpt-3.5-turbo" = some ⟨0.50, 1.50, none⟩ := rfl
      unfold calculate_cost
      rw [h35]
      simp only [Except.ok.injEq]
      norm_num
  refine ⟨by norm_num [cfgDaily], ?_, ?_, rfl, ?_, ?_⟩
  · show cfgDaily.daily_budget ≤ trackerDaily.get_daily_cost "default" "2026-01-01"
    rw [hdaily]
    norm_num [cfgDaily]
  · show (ChatREPL.init cfgDaily "s1" trackerDaily "2026-01-01").1.running = false
    simp only [ChatREPL.init]
    split
    · rfl
    · rfl
  · unfold loop_step
    rw [show (ChatREPL.start stDaily).running = true from rfl]
    simp
  · rw [hok]
